import Mathlib

/-!
Shallow embedding of the ANT-Plugin core (src/main.ts): the dual quiz-trigger
logic of an Obsidian note-taking plugin.  The embedding models

* the settings record `MyPluginSettings` with defaults `DEFAULT_SETTINGS`,
* `loadSettings` / `saveSettings` (Object.assign merge over a persisted store),
* the word-count trigger `handleNoteChange`
  (`content.split(;\s+;).filter(Boolean).length` compared to the threshold),
* the one-shot timer `startTimer` (`clearTimeout` then `window.setTimeout`),
* the settings-tab `onChange` handlers, which store `parseInt(value)`
  unconditionally and persist.

JavaScript numbers produced by this plugin are integers or NaN (`parseInt`
never yields a fraction), so they are modelled by `JSNum`.  The host runtime
(timer facility and elapsed time) is modelled by an explicit system state with
a list of pending timeouts; `passTime` delivers due timer callbacks.
-/

/-- A JavaScript number as this plugin can produce one: an integer or NaN
(`parseInt` yields only integers or NaN, and the defaults are integers). -/
inductive JSNum where
  | nan : JSNum
  | int : Int → JSNum
deriving DecidableEq, Repr

/-- Positivity `0 < n` for a JS number; NaN is not positive (every comparison with NaN
is false in JS). -/
def JSNum.isPositive : JSNum → Bool
  | .nan => false
  | .int n => 0 < n

/-- The JS comparison `w >= t` where `w` is a nonnegative integer (a length)
and `t` is a JS number; false when `t` is NaN. -/
def jsGeNat (w : Nat) (t : JSNum) : Bool :=
  match t with
  | .nan => false
  | .int n => n ≤ (w : Int)

/-- Product `t * 60000` in JS arithmetic (NaN is absorbing). -/
def jsMul60000 : JSNum → JSNum
  | .nan => .nan
  | .int n => .int (n * 60000)

/-- The delay actually used by `window.setTimeout(cb, d)`: NaN and negative
delays coerce to 0. -/
def timeoutDelay : JSNum → Nat
  | .nan => 0
  | .int n => n.toNat

/-- The character class of the regex `\s` in JavaScript (ASCII whitespace,
NBSP, the Unicode space separators, and the line/paragraph separators). -/
def jsWhitespace (c : Char) : Bool :=
  c = ' ' || c = '\t' || c = '\n' || c = '\r' || c = '\x0b' || c = '\x0c' ||
  c = '\xa0' || c = '\u1680' || ('\u2000' ≤ c && c ≤ '\u200a') ||
  c = '\u2028' || c = '\u2029' || c = '\u202f' || c = '\u205f' ||
  c = '\u3000' || c = '\ufeff'

/-- Truthiness `Boolean(w)` for a JS string `w`: truthy iff nonempty; this is the
predicate used by `.filter(Boolean)`. -/
def jsTruthy (w : String) : Bool := w ≠ ""

/-- Worker for `jsSplitWs`.  `skipping = true` means the scan is inside a
whitespace run whose first separator piece has already been emitted (so
further whitespace characters extend the same separator match); `acc` holds
the characters of the current piece, reversed. -/
def jsSplitWsAux : List Char → Bool → List Char → List String
  | [], _, acc => [String.mk acc.reverse]
  | c :: cs, skipping, acc =>
    if jsWhitespace c then
      if skipping then jsSplitWsAux cs true []
      else String.mk acc.reverse :: jsSplitWsAux cs true []
    else jsSplitWsAux cs false (c :: acc)

/-- The call `content.split` on the whitespace-run regex, as in JS: the pieces between
maximal whitespace runs, including empty pieces at the boundaries (a leading
or trailing run yields an empty piece, and splitting the empty string yields
one empty piece). -/
def jsSplitWs (cs : List Char) : List String :=
  jsSplitWsAux cs false []

/-- The expression `content.split(;\s+;).filter(Boolean).length` from
`handleNoteChange`. -/
def wordCount (content : String) : Nat :=
  ((jsSplitWs content.data).filter jsTruthy).length

/-- Specification-side word count (not from the source): the number of
maximal non-whitespace runs.  `inRun` records whether the previous character
was part of a run. -/
def countRunsAux : Bool → List Char → Nat
  | _, [] => 0
  | inRun, c :: cs =>
    if jsWhitespace c then countRunsAux false cs
    else (if inRun then 0 else 1) + countRunsAux true cs

/-- Specification-side word count: the number of maximal non-whitespace runs
of the content. -/
def countRuns (cs : List Char) : Nat := countRunsAux false cs

/-- JS `parseInt(value)` with no radix argument: skip leading whitespace, read
an optional sign, a `0x`/`0X` prefix selects hexadecimal, parse the longest
prefix of digits and ignore everything after it; no digits means NaN. -/
def parseIntJS (value : String) : JSNum :=
  let cs := value.data.dropWhile jsWhitespace
  let signAndRest : Int × List Char :=
    match cs with
    | '-' :: rest => (-1, rest)
    | '+' :: rest => (1, rest)
    | _ => (1, cs)
  let sign := signAndRest.1
  let baseAndRest : Nat × List Char :=
    match signAndRest.2 with
    | '0' :: 'x' :: rest => (16, rest)
    | '0' :: 'X' :: rest => (16, rest)
    | rest => (10, rest)
  let base := baseAndRest.1
  let isDigit : Char → Bool := fun c =>
    ('0' ≤ c && c ≤ '9') || (base = 16 && (('a' ≤ c && c ≤ 'f') || ('A' ≤ c && c ≤ 'F')))
  let digitVal : Char → Nat := fun c =>
    if '0' ≤ c && c ≤ '9' then c.toNat - '0'.toNat
    else if 'a' ≤ c && c ≤ 'f' then c.toNat - 'a'.toNat + 10
    else c.toNat - 'A'.toNat + 10
  let ds := baseAndRest.2.takeWhile isDigit
  if ds.isEmpty then .nan
  else .int (sign * (ds.foldl (fun acc c => acc * base + digitVal c) 0 : Nat))

/-- The `interface MyPluginSettings` from src/main.ts. -/
structure MyPluginSettings where
  timeInterval : JSNum
  wordCountThreshold : JSNum
deriving DecidableEq, Repr

/-- The source's `DEFAULT_SETTINGS`: 5 minutes, 500 words. -/
def DEFAULT_SETTINGS : MyPluginSettings :=
  { timeInterval := .int 5, wordCountThreshold := .int 500 }

/-- The shape of the data returned by `loadData()`: a JSON object in which
either settings field may be missing. -/
structure PersistedSettings where
  timeInterval : Option JSNum
  wordCountThreshold : Option JSNum
deriving DecidableEq, Repr

/-- The merge `Object.assign({}, DEFAULT_SETTINGS, data)`: fields present in `data`
override the defaults, field by field; `data` may be null (no saved file). -/
def objectAssign (defaults : MyPluginSettings) (data : Option PersistedSettings) :
    MyPluginSettings :=
  match data with
  | none => defaults
  | some p =>
    { timeInterval := p.timeInterval.getD defaults.timeInterval
      wordCountThreshold := p.wordCountThreshold.getD defaults.wordCountThreshold }

/-- The whole system: the plugin instance (`settings`, the `timer` handle
field) together with the host runtime it calls into (persisted settings
store, current time in ms, the next fresh timeout id, the list of pending
timeouts as (id, fire time) pairs) and the observable trigger sink
(`quizCount` counts the `triggerQuiz` invocations). -/
structure SysState where
  settings : MyPluginSettings
  timer : Option Nat
  store : Option PersistedSettings
  now : Nat
  nextId : Nat
  pending : List (Nat × Nat)
  quizCount : Nat
deriving DecidableEq, Repr

/-- Method `loadSettings`: `this.settings = Object.assign({}, DEFAULT_SETTINGS,
await this.loadData())`. -/
def loadSettings (s : SysState) : SysState :=
  { s with settings := objectAssign DEFAULT_SETTINGS s.store }

/-- Method `saveSettings`: `await this.saveData(this.settings)` — persists the whole
settings object, so both fields are present in the store afterwards. -/
def saveSettings (s : SysState) : SysState :=
  { s with store := some { timeInterval := some s.settings.timeInterval
                           wordCountThreshold := some s.settings.wordCountThreshold } }

/-- Method `triggerQuiz`: the trigger sink; it only logs, observable as one sink
invocation. -/
def triggerQuiz (s : SysState) : SysState :=
  { s with quizCount := s.quizCount + 1 }

/-- Host `clearTimeout(id)`: removes the pending timeout with that id, a
no-op when none is pending. -/
def clearTimeout (s : SysState) (id : Nat) : SysState :=
  { s with pending := s.pending.filter (fun p => p.1 ≠ id) }

/-- Host `window.setTimeout(cb, delay)`: registers a fresh one-shot timeout
due at `now + delay` and returns its id.  The only callback this plugin ever
registers is `() => this.triggerQuiz()`, so the callback is not stored; it is
run by `passTime` when the timeout comes due. -/
def setTimeout (s : SysState) (delay : Nat) : Nat × SysState :=
  (s.nextId,
   { s with pending := s.pending ++ [(s.nextId, s.now + delay)]
            nextId := s.nextId + 1 })

/-- Method `startTimer`: clear any existing timer recorded in `this.timer`, then
schedule the quiz callback after `this.settings.timeInterval * 60000` ms and
store the new handle. -/
def startTimer (s : SysState) : SysState :=
  let s1 := match s.timer with
    | some id => clearTimeout s id
    | none => s
  let r := setTimeout s1 (timeoutDelay (jsMul60000 s1.settings.timeInterval))
  { r.2 with timer := some r.1 }

/-- Host time passing by `d` ms: every pending timeout that comes due fires
its callback — for this plugin always `() => this.triggerQuiz()`, which does
not reschedule anything and does not clear the `timer` field — and is removed
from the pending list. -/
def passTime (s : SysState) (d : Nat) : SysState :=
  let t := s.now + d
  { s with now := t
           pending := s.pending.filter (fun p => ¬ p.2 ≤ t)
           quizCount := s.quizCount + (s.pending.filter (fun p => p.2 ≤ t)).length }

/-- Iterated `passTime`: time passing with no plugin activity in between. -/
def passMany (s : SysState) (ds : List Nat) : SysState :=
  ds.foldl passTime s

/-- Method `handleNoteChange`: read the file (the read may fail — there is no
try/catch, so a failure makes the async function's promise reject and nothing
after the `await` runs), count the words of the content, and invoke
`triggerQuiz` when the count reaches the threshold. -/
def handleNoteChange (s : SysState) (readResult : Except Unit String) :
    Except Unit SysState :=
  match readResult with
  | .error e => .error e
  | .ok content =>
    let wc := wordCount content
    if jsGeNat wc s.settings.wordCountThreshold then .ok (triggerQuiz s)
    else .ok s

/-- The `vault.on ;modify;` subscription callback
`(file) => { this.handleNoteChange(file); }`: it does not await the returned
promise, so a rejection is discarded unobserved and the host's event dispatch
continues normally. -/
def modifyCallback (s : SysState) (readResult : Except Unit String) : SysState :=
  match handleNoteChange s readResult with
  | .ok s1 => s1
  | .error _ => s

/-- The settings-tab `onChange` handler for the time-interval text field:
`this.plugin.settings.timeInterval = parseInt(value); await
this.plugin.saveSettings()`.  No validation of any kind. -/
def updateTimeInterval (s : SysState) (value : String) : SysState :=
  saveSettings
    { s with settings := { s.settings with timeInterval := parseIntJS value } }

/-- The settings-tab `onChange` handler for the word-count-threshold text
field: `this.plugin.settings.wordCountThreshold = parseInt(value); await
this.plugin.saveSettings()`.  No validation of any kind. -/
def updateWordCountThreshold (s : SysState) (value : String) : SysState :=
  saveSettings
    { s with settings := { s.settings with wordCountThreshold := parseIntJS value } }

/-- A fresh plugin instance before `onload`, over a given persisted store:
no timer, nothing pending, no quiz fired yet.  (The `settings` field is
assigned during `onload`; its initial value is irrelevant.) -/
def initState (store : Option PersistedSettings) : SysState :=
  { settings := DEFAULT_SETTINGS
    timer := none
    store := store
    now := 0
    nextId := 1
    pending := []
    quizCount := 0 }

/-- The trigger-relevant part of `onload`: `await this.loadSettings();
this.startTimer();`. -/
def onload (store : Option PersistedSettings) : SysState :=
  startTimer (loadSettings (initState store))

/-- Sample content with `n` words: `n` copies of `w`, each followed by a
single space. -/
def sampleChars : Nat → List Char
  | 0 => []
  | n + 1 => 'w' :: ' ' :: sampleChars n

/-- Sample content with `n` words, as a string. -/
def sampleContent (n : Nat) : String := String.mk (sampleChars n)

/-- The scheduler invariant of the spec: at most one live timeout exists, and
any live timeout is the one recorded in the plugin's `timer` field. -/
def timerInv (s : SysState) : Prop :=
  s.pending.length ≤ 1 ∧ ∀ p ∈ s.pending, s.timer = some p.1

/-! ## Helper lemmas -/

theorem string_mk_nil_eq_empty : String.mk [] = "" := rfl

theorem jsTruthy_mk_nil : jsTruthy (String.mk []) = false := by decide

theorem jsTruthy_empty : jsTruthy "" = false := by decide

theorem jsTruthy_mk_cons (a : Char) (as : List Char) :
    jsTruthy (String.mk (a :: as)) = true := by
  simp [jsTruthy, String.ext_iff]

theorem triggerQuiz_ne (s : SysState) : triggerQuiz s ≠ s := by
  intro h
  have hq := congrArg SysState.quizCount h
  simp [triggerQuiz] at hq

/-- Splitting then filtering out empty pieces counts the maximal
non-whitespace runs: the generalized invariant over the worker's state. -/
theorem jsSplitWsAux_count (cs : List Char) :
    (∀ acc : List Char,
      ((jsSplitWsAux cs false acc).filter jsTruthy).length
        = (if acc.isEmpty then 0 else 1) + countRunsAux (!acc.isEmpty) cs)
    ∧ ((jsSplitWsAux cs true []).filter jsTruthy).length = countRunsAux false cs := by
  induction cs with
  | nil =>
    constructor
    · intro acc
      cases acc with
      | nil => simp [jsSplitWsAux, countRunsAux, jsTruthy_empty]
      | cons a as =>
        simp [jsSplitWsAux, countRunsAux, List.filter,
              jsTruthy_mk_cons, List.reverse_cons]
        cases h : (as.reverse ++ [a]) with
        | nil => simp at h
        | cons b bs => simp [jsTruthy_mk_cons]
    · simp [jsSplitWsAux, countRunsAux, jsTruthy_empty]
  | cons c cs ih =>
    constructor
    · intro acc
      by_cases hw : jsWhitespace c
      · cases acc with
        | nil =>
          simp [jsSplitWsAux, hw, countRunsAux, List.filter, jsTruthy_empty, ih.2]
        | cons a as =>
          simp only [jsSplitWsAux, hw, if_true, List.filter]
          cases h : (a :: as).reverse with
          | nil => simp at h
          | cons b bs =>
            simp [h, jsTruthy_mk_cons, ih.2, countRunsAux, hw]
            omega
      · simp only [jsSplitWsAux, hw, if_false, Bool.false_eq_true]
        rw [(ih.1 (c :: acc))]
        cases acc <;> simp [countRunsAux, hw]
    · by_cases hw : jsWhitespace c
      · simp [jsSplitWsAux, hw, countRunsAux, ih.2]
      · simp only [jsSplitWsAux, hw, if_false, Bool.false_eq_true]
        rw [(ih.1 [c])]
        simp [countRunsAux, hw]

/-- The word count of the source equals the number of maximal non-whitespace
runs. -/
theorem wordCount_eq_countRuns (content : String) :
    wordCount content = countRuns content.data := by
  have h := (jsSplitWsAux_count content.data).1 []
  simpa [wordCount, jsSplitWs, countRuns] using h

/-- Whitespace-only content has no run. -/
theorem countRunsAux_all_ws (cs : List Char) (b : Bool)
    (h : ∀ c ∈ cs, jsWhitespace c = true) : countRunsAux b cs = 0 := by
  induction cs generalizing b with
  | nil => rfl
  | cons c cs ih =>
    have hc : jsWhitespace c = true := h c (List.mem_cons_self c cs)
    simp [countRunsAux, hc, ih false (fun x hx => h x (List.mem_cons_of_mem c hx))]

/-- The sample content has exactly `n` words. -/
theorem countRuns_sampleChars (n : Nat) : countRuns (sampleChars n) = n := by
  induction n with
  | zero => rfl
  | succ n ih =>
    have hw : jsWhitespace 'w' = false := by decide
    have hs : jsWhitespace ' ' = true := by decide
    simp [sampleChars, countRuns, countRunsAux, hw, hs] at ih ⊢
    omega

theorem wordCount_sampleContent (n : Nat) : wordCount (sampleContent n) = n := by
  rw [sampleContent, wordCount_eq_countRuns]
  exact countRuns_sampleChars n

theorem length_filter_pos_neg {α : Type} (q : α → Bool) (l : List α) :
    (l.filter q).length + (l.filter fun a => !q a).length = l.length := by
  induction l with
  | nil => rfl
  | cons a l ih =>
    cases h : q a <;> simp [List.filter, h] <;> omega

/-- Passing time conserves sink invocations plus live timeouts. -/
theorem passTime_conserves (s : SysState) (d : Nat) :
    (passTime s d).quizCount + (passTime s d).pending.length
      = s.quizCount + s.pending.length := by
  have h := length_filter_pos_neg
    (fun p : Nat × Nat => decide (p.2 ≤ s.now + d)) s.pending
  simp only [passTime, decide_not]
  omega

theorem passMany_conserves (s : SysState) (ds : List Nat) :
    (passMany s ds).quizCount + (passMany s ds).pending.length
      = s.quizCount + s.pending.length := by
  induction ds generalizing s with
  | nil => rfl
  | cons d ds ih =>
    have h1 := passTime_conserves s d
    have h2 := ih (passTime s d)
    simp only [passMany, List.foldl] at h2 ⊢
    omega

theorem passTime_pending_nil (s : SysState) (d : Nat) (h : s.pending = []) :
    (passTime s d).pending = [] ∧ (passTime s d).quizCount = s.quizCount := by
  simp [passTime, h]

theorem passMany_pending_nil (s : SysState) (ds : List Nat) (h : s.pending = []) :
    (passMany s ds).pending = [] ∧ (passMany s ds).quizCount = s.quizCount := by
  induction ds generalizing s with
  | nil => exact ⟨h, rfl⟩
  | cons d ds ih =>
    have h1 := passTime_pending_nil s d h
    have h2 := ih (passTime s d) h1.1
    simp only [passMany, List.foldl] at h2 ⊢
    exact ⟨h2.1, h2.2.trans h1.2⟩

theorem timerInv_of_pending_nil (s : SysState) (h : s.pending = []) : timerInv s := by
  constructor <;> simp [h]

/-- Under the invariant, `startTimer` leaves exactly the newly scheduled
timeout pending: the fresh id, due one `timeInterval * 60000` from now. -/
theorem startTimer_pending (s : SysState) (h : timerInv s) :
    (startTimer s).pending
      = [(s.nextId, s.now + timeoutDelay (jsMul60000 s.settings.timeInterval))]
    ∧ (startTimer s).timer = some s.nextId
    ∧ (startTimer s).now = s.now
    ∧ (startTimer s).quizCount = s.quizCount
    ∧ (startTimer s).settings = s.settings
    ∧ (startTimer s).nextId = s.nextId + 1 := by
  rcases h with ⟨hlen, hown⟩
  cases ht : s.timer with
  | none =>
    have hnil : s.pending = [] := by
      cases hp : s.pending with
      | nil => rfl
      | cons p ps =>
        have := hown p (by simp [hp])
        rw [ht] at this
        exact absurd this (by simp)
    simp [startTimer, ht, setTimeout, hnil]
  | some id =>
    simp [startTimer, ht, clearTimeout, setTimeout]
    intro a b hmem
    have h1 := hown (a, b) hmem
    rw [ht] at h1
    injection h1 with h1
    exact h1.symm

theorem timerInv_startTimer (s : SysState) (h : timerInv s) :
    timerInv (startTimer s) := by
  have hp := startTimer_pending s h
  constructor
  · rw [hp.1]; simp
  · intro p hmem
    rw [hp.1] at hmem
    simp at hmem
    subst hmem
    rw [hp.2.1]

theorem timerInv_passTime (s : SysState) (d : Nat) (h : timerInv s) :
    timerInv (passTime s d) := by
  rcases h with ⟨hlen, hown⟩
  constructor
  · calc (passTime s d).pending.length
        ≤ s.pending.length := by simp [passTime]; exact List.length_filter_le _ _
      _ ≤ 1 := hlen
  · intro p hmem
    simp only [passTime] at hmem ⊢
    exact hown p (List.mem_of_mem_filter hmem)

theorem passTime_singleton (s : SysState) (i T d : Nat) (h : s.pending = [(i, T)]) :
    (T ≤ s.now + d →
      (passTime s d).quizCount = s.quizCount + 1 ∧ (passTime s d).pending = []) ∧
    (¬ T ≤ s.now + d →
      (passTime s d).quizCount = s.quizCount ∧ (passTime s d).pending = [(i, T)]) := by
  constructor <;> intro hc <;> simp [passTime, h, hc] <;> omega

/-- Arming from a state with no live timeout over an integral interval `m`:
the schedule, the frame facts, and the expiry behaviour in both time regimes. -/
theorem startTimer_expiry_helper (m : Nat) (s : SysState)
    (hset : s.settings.timeInterval = .int (m : Int)) (hp : s.pending = []) :
    (startTimer s).pending = [(s.nextId, s.now + m * 60000)] ∧
    (startTimer s).now = s.now ∧
    (startTimer s).quizCount = s.quizCount ∧
    (startTimer s).timer = some s.nextId ∧
    (∀ d : Nat, m * 60000 ≤ d →
      (passTime (startTimer s) d).quizCount = s.quizCount + 1 ∧
      (passTime (startTimer s) d).pending = []) ∧
    (∀ d : Nat, d < m * 60000 →
      (passTime (startTimer s) d).quizCount = s.quizCount ∧
      (passTime (startTimer s) d).pending = [(s.nextId, s.now + m * 60000)]) := by
  have hinv := timerInv_of_pending_nil s hp
  have hst := startTimer_pending s hinv
  have hdelay : timeoutDelay (jsMul60000 s.settings.timeInterval) = m * 60000 := by
    rw [hset]
    simp only [jsMul60000, timeoutDelay]
    omega
  rw [hdelay] at hst
  obtain ⟨hpend, htimer, hnow, hquiz, -, -⟩ := hst
  have hsing := fun d => passTime_singleton (startTimer s) s.nextId
    (s.now + m * 60000) d hpend
  refine ⟨hpend, hnow, hquiz, htimer, ?_, ?_⟩
  · intro d hd
    have hc : s.now + m * 60000 ≤ (startTimer s).now + d := by rw [hnow]; omega
    have h1 := (hsing d).1 hc
    exact ⟨by rw [h1.1, hquiz], h1.2⟩
  · intro d hd
    have hc : ¬ s.now + m * 60000 ≤ (startTimer s).now + d := by rw [hnow]; omega
    have h1 := (hsing d).2 hc
    exact ⟨by rw [h1.1, hquiz], h1.2⟩

/-- A state change that leaves `pending` and `timer` alone preserves the
scheduler invariant. -/
theorem timerInv_of_frame {s t : SysState} (hp : t.pending = s.pending)
    (ht : t.timer = s.timer) (h : timerInv s) : timerInv t := by
  rw [timerInv, hp, ht]
  exact h

theorem modifyCallback_frame (s : SysState) (r : Except Unit String) :
    (modifyCallback s r).pending = s.pending ∧
    (modifyCallback s r).timer = s.timer := by
  cases r with
  | error e => exact ⟨rfl, rfl⟩
  | ok content =>
    by_cases hc : jsGeNat (wordCount content) s.settings.wordCountThreshold
    · simp [modifyCallback, handleNoteChange, hc, triggerQuiz]
    · simp [modifyCallback, handleNoteChange, hc]

/-! ## Claim theorems -/

/-- C1: For every change event with content `C`, the trigger sink is invoked
during that event's evaluation (the result is exactly one `triggerQuiz`
application) if and only if the word count of `C` is at least the configured
`wordCountThreshold`; in particular, with threshold 500, content of 499 words
does not trigger, and content of 500 words triggers exactly once. -/
theorem trigger_iff_word_threshold :
    (∀ (s : SysState) (t : Int) (content : String),
      s.settings.wordCountThreshold = .int t →
      ((handleNoteChange s (.ok content) = .ok (triggerQuiz s)) ↔
        t ≤ (wordCount content : Int)) ∧
      ((handleNoteChange s (.ok content) = .ok s) ↔
        ¬ t ≤ (wordCount content : Int)))
    ∧ (∀ s : SysState, s.settings.wordCountThreshold = .int 500 →
        handleNoteChange s (.ok (sampleContent 499)) = .ok s ∧
        handleNoteChange s (.ok (sampleContent 500)) = .ok (triggerQuiz s)) := by
  have main : ∀ (s : SysState) (t : Int) (content : String),
      s.settings.wordCountThreshold = .int t →
      ((handleNoteChange s (.ok content) = .ok (triggerQuiz s)) ↔
        t ≤ (wordCount content : Int)) ∧
      ((handleNoteChange s (.ok content) = .ok s) ↔
        ¬ t ≤ (wordCount content : Int)) := by
    intro s t content h
    by_cases hc : t ≤ (wordCount content : Int)
    · simp [handleNoteChange, jsGeNat, h, hc, triggerQuiz_ne s]
    · simp [handleNoteChange, jsGeNat, h, hc, (triggerQuiz_ne s).symm]
  refine ⟨main, ?_⟩
  intro s h
  constructor
  · exact (main s 500 (sampleContent 499) h).2.mpr
      (by rw [wordCount_sampleContent]; norm_num)
  · exact (main s 500 (sampleContent 500) h).1.mpr
      (by rw [wordCount_sampleContent]; norm_num)

/-- Witness for C1 at a concrete state: the fresh plugin (threshold 500) does
not trigger on 499 words and triggers exactly once on 500 words. -/
theorem trigger_iff_word_threshold_witness :
    handleNoteChange (initState none) (.ok (sampleContent 499))
      = .ok (initState none) ∧
    handleNoteChange (initState none) (.ok (sampleContent 500))
      = .ok (triggerQuiz (initState none)) :=
  trigger_iff_word_threshold.2 (initState none) rfl

/-- C2: the word count the monitor computes equals the number of maximal
non-whitespace runs of the content; empty or whitespace-only content counts 0
words and (for a positive threshold) never triggers. -/
theorem word_count_counts_runs (content : String) :
    wordCount content = countRuns content.data ∧
    (content.data.all jsWhitespace = true → wordCount content = 0) ∧
    (∀ (s : SysState) (t : Int), s.settings.wordCountThreshold = .int t →
      0 < t → content.data.all jsWhitespace = true →
      handleNoteChange s (.ok content) = .ok s) := by
  have heq := wordCount_eq_countRuns content
  have hz : content.data.all jsWhitespace = true → wordCount content = 0 := by
    intro hall
    rw [heq]
    exact countRunsAux_all_ws _ false (by simpa [List.all_eq_true] using hall)
  refine ⟨heq, hz, ?_⟩
  intro s t hthr ht hall
  have hlt : ¬ t ≤ ((wordCount content : Nat) : Int) := by
    rw [hz hall]
    simpa using ht
  simp [handleNoteChange, jsGeNat, hthr, hlt]

/-- Witness for C2 at concrete content: whitespace-only content never
triggers on the fresh plugin. -/
theorem word_count_counts_runs_witness :
    handleNoteChange (initState none) (.ok "  ") = .ok (initState none) :=
  (word_count_counts_runs "  ").2.2 (initState none) 500 rfl (by norm_num)
    (by decide)

/-- C3: for every positive `intervalMinutes`, arming schedules a one-shot
timeout due exactly `intervalMinutes * 60000` ms from now, and running it
uninterrupted invokes the sink exactly once at expiry (and not before). -/
theorem arm_schedules_one_shot (m : Nat) (s : SysState) (hm : 0 < m)
    (hset : s.settings.timeInterval = .int (m : Int)) (hp : s.pending = []) :
    (startTimer s).pending = [(s.nextId, s.now + m * 60000)] ∧
    (∀ d : Nat, m * 60000 ≤ d →
      (passTime (startTimer s) d).quizCount = s.quizCount + 1 ∧
      (passTime (startTimer s) d).pending = []) ∧
    (∀ d : Nat, d < m * 60000 →
      (passTime (startTimer s) d).quizCount = s.quizCount) := by
  obtain ⟨h1, -, -, -, h5, h6⟩ := startTimer_expiry_helper m s hset hp
  exact ⟨h1, h5, fun d hd => (h6 d hd).1⟩

/-- Witness for C3: a fresh plugin (5-minute default interval) armed at
startup fires exactly once when 300000 ms pass, and not at 299999 ms. -/
theorem arm_schedules_one_shot_witness :
    (startTimer (initState none)).pending = [(1, 300000)] ∧
    (passTime (startTimer (initState none)) 300000).quizCount = 1 ∧
    (passTime (startTimer (initState none)) 299999).quizCount = 0 := by
  have h := arm_schedules_one_shot 5 (initState none) (by norm_num) rfl rfl
  exact ⟨h.1, (h.2.1 300000 (by norm_num)).1, h.2.2 299999 (by norm_num)⟩

/-- C4: at any instant at most one live timeout exists — the scheduler
invariant is preserved by every operation of the plugin; each arm cancels the
prior schedule, so immediately after an arm the only pending timeout is the
one that arm created, timed from that arm's instant; and from any state
satisfying the invariant, time passing fires the sink at most once. -/
theorem at_most_one_live_timer :
    (∀ s : SysState, timerInv s →
      timerInv (startTimer s) ∧
      (∀ d : Nat, timerInv (passTime s d)) ∧
      (∀ v : String, timerInv (updateTimeInterval s v)) ∧
      (∀ v : String, timerInv (updateWordCountThreshold s v)) ∧
      (∀ r : Except Unit String, timerInv (modifyCallback s r)) ∧
      timerInv (loadSettings s) ∧ timerInv (saveSettings s)) ∧
    (∀ s : SysState, timerInv s →
      (startTimer s).pending
        = [(s.nextId, s.now + timeoutDelay (jsMul60000 s.settings.timeInterval))]) ∧
    (∀ s : SysState, timerInv s →
      ∀ ds : List Nat, (passMany s ds).quizCount ≤ s.quizCount + 1) := by
  refine ⟨?_, ?_, ?_⟩
  · intro s h
    refine ⟨timerInv_startTimer s h, fun d => timerInv_passTime s d h,
      fun v => timerInv_of_frame rfl rfl h,
      fun v => timerInv_of_frame rfl rfl h,
      fun r => ?_,
      timerInv_of_frame rfl rfl h, timerInv_of_frame rfl rfl h⟩
    have hf := modifyCallback_frame s r
    exact timerInv_of_frame hf.1 hf.2 h
  · intro s h
    exact (startTimer_pending s h).1
  · intro s h ds
    have hcons := passMany_conserves s ds
    have hlen := h.1
    omega

/-- Witness for C4: rearming the already-armed fresh plugin leaves exactly
the new schedule pending, and arbitrary time passing fires at most once. -/
theorem at_most_one_live_timer_witness :
    (startTimer (onload none)).pending = [(2, 300000)] ∧
    (passMany (onload none) [300000, 300000, 300000]).quizCount ≤ 1 := by
  constructor
  · have h := at_most_one_live_timer.2.1 (onload none) ⟨by decide, by decide⟩
    exact h.trans (by decide)
  · have h := at_most_one_live_timer.2.2 (onload none) ⟨by decide, by decide⟩
      [300000, 300000, 300000]
    simpa using h

/-- C8: the scheduler never rearms itself after firing: an uninterrupted arm
cycle invokes the sink exactly once at expiry, empties the schedule, and no
amount of further time passing produces another timer-driven invocation
without a new explicit arm. -/
theorem no_automatic_rearm (m : Nat) (s : SysState) (hm : 0 < m)
    (hset : s.settings.timeInterval = .int (m : Int)) (hp : s.pending = []) :
    ∀ d : Nat, m * 60000 ≤ d →
      (passTime (startTimer s) d).quizCount = s.quizCount + 1 ∧
      (passTime (startTimer s) d).pending = [] ∧
      (∀ ds : List Nat,
        (passMany (passTime (startTimer s) d) ds).quizCount = s.quizCount + 1 ∧
        (passMany (passTime (startTimer s) d) ds).pending = []) := by
  intro d hd
  obtain ⟨-, -, -, -, h5, -⟩ := startTimer_expiry_helper m s hset hp
  obtain ⟨hq, hpend⟩ := h5 d hd
  refine ⟨hq, hpend, fun ds => ?_⟩
  have h := passMany_pending_nil (passTime (startTimer s) d) ds hpend
  exact ⟨h.2.trans hq, h.1⟩

/-- Witness for C8: after the fresh plugin's timer fires once at 300000 ms,
three further days of inactivity fire nothing more. -/
theorem no_automatic_rearm_witness :
    (passMany (passTime (startTimer (initState none)) 300000)
      [86400000, 86400000, 86400000]).quizCount = 1 := by
  have h := no_automatic_rearm 5 (initState none) (by norm_num) rfl rfl
    300000 (by norm_num)
  exact (h.2.2 [86400000, 86400000, 86400000]).1

/-- C9: settings round-trip — load, update a field with a valid value, save
(the update persists as part of the handler), then load again: the updated
field reads back the new value and the other field is unchanged. -/
theorem settings_round_trip (s : SysState) (v : Int) (str : String)
    (hparse : parseIntJS str = .int v) (hv : 0 < v) :
    ((loadSettings (updateTimeInterval (loadSettings s) str)).settings.timeInterval
        = .int v ∧
      (loadSettings (updateTimeInterval (loadSettings s) str)).settings.wordCountThreshold
        = (loadSettings s).settings.wordCountThreshold) ∧
    ((loadSettings (updateWordCountThreshold (loadSettings s) str)).settings.wordCountThreshold
        = .int v ∧
      (loadSettings (updateWordCountThreshold (loadSettings s) str)).settings.timeInterval
        = (loadSettings s).settings.timeInterval) := by
  simp [loadSettings, updateTimeInterval, updateWordCountThreshold,
        saveSettings, objectAssign, hparse]

/-- Witness for C9: updating the interval to the valid value 7 on a fresh
plugin reads back as 7 after a reload. -/
theorem settings_round_trip_witness :
    (loadSettings (updateTimeInterval (loadSettings (initState none)) "7")).settings.timeInterval
      = .int 7 ∧
    (loadSettings (updateTimeInterval (loadSettings (initState none)) "7")).settings.wordCountThreshold
      = (loadSettings (initState none)).settings.wordCountThreshold :=
  (settings_round_trip (initState none) 7 "7" (by decide) (by norm_num)).1

/-- C10: updating either settings field through the settings tab leaves the
armed timer alone — the `timer` handle, the pending schedule, the clock, the
id counter and the sink count are all unchanged — and the new interval value
sits in the settings, taking effect only on the next explicit arm, which then
schedules with the newly parsed interval. -/
theorem settings_update_leaves_timer (s : SysState) (v : String) :
    ((updateTimeInterval s v).timer = s.timer ∧
     (updateTimeInterval s v).pending = s.pending ∧
     (updateTimeInterval s v).now = s.now ∧
     (updateTimeInterval s v).nextId = s.nextId ∧
     (updateTimeInterval s v).quizCount = s.quizCount) ∧
    ((updateWordCountThreshold s v).timer = s.timer ∧
     (updateWordCountThreshold s v).pending = s.pending ∧
     (updateWordCountThreshold s v).now = s.now ∧
     (updateWordCountThreshold s v).nextId = s.nextId ∧
     (updateWordCountThreshold s v).quizCount = s.quizCount) ∧
    (updateTimeInterval s v).settings.timeInterval = parseIntJS v ∧
    (s.pending = [] →
      (startTimer (updateTimeInterval s v)).pending
        = [(s.nextId, s.now + timeoutDelay (jsMul60000 (parseIntJS v)))]) := by
  refine ⟨⟨rfl, rfl, rfl, rfl, rfl⟩, ⟨rfl, rfl, rfl, rfl, rfl⟩, rfl, ?_⟩
  intro hp
  have hinv : timerInv (updateTimeInterval s v) :=
    timerInv_of_pending_nil _ hp
  exact (startTimer_pending _ hinv).1

/-- Witness for C10: updating the interval to 1 on a fresh plugin does not
touch the (empty) schedule, and the next arm schedules with the new value. -/
theorem settings_update_leaves_timer_witness :
    (startTimer (updateTimeInterval (initState none) "1")).pending
      = [(1, 60000)] := by
  have h := (settings_update_leaves_timer (initState none) "1").2.2.2 rfl
  exact h.trans (by decide)

/-- Counterexample for C5: the update operation performs no validation — the
non-positive input `-3` replaces the prior stored interval (and is not
positive), and no error value exists anywhere in the handler's result. -/
theorem settings_update_validation_cex :
    (updateTimeInterval (initState none) "-3").settings.timeInterval
      = JSNum.int (-3) ∧
    (updateTimeInterval (initState none) "-3").settings.timeInterval
      ≠ (initState none).settings.timeInterval ∧
    JSNum.isPositive (JSNum.int (-3)) = false := by
  exact ⟨by decide, by decide, rfl⟩

/-- C5 as amended: the `onChange` handlers parse the input with `parseInt`
and unconditionally store and persist the result — including NaN for
non-numeric input and non-positive numbers — with no validation, no error
report, and no retention of the prior value. -/
theorem settings_update_stores_unvalidated (s : SysState) (value : String) :
    (updateTimeInterval s value).settings.timeInterval = parseIntJS value ∧
    (updateTimeInterval s value).settings.wordCountThreshold
      = s.settings.wordCountThreshold ∧
    (updateTimeInterval s value).store
      = some { timeInterval := some (parseIntJS value)
               wordCountThreshold := some s.settings.wordCountThreshold } ∧
    (updateWordCountThreshold s value).settings.wordCountThreshold
      = parseIntJS value ∧
    (updateWordCountThreshold s value).settings.timeInterval
      = s.settings.timeInterval ∧
    (updateWordCountThreshold s value).store
      = some { timeInterval := some s.settings.timeInterval
               wordCountThreshold := some (parseIntJS value) } :=
  ⟨rfl, rfl, rfl, rfl, rfl, rfl⟩

/-- Counterexample for C6: a failed content read is not recovered silently —
`handleNoteChange` has no catch, so its promise rejects (the error leaves the
function) rather than the evaluation completing normally. -/
theorem read_failure_rejects_cex :
    handleNoteChange (initState none) (Except.error ()) = Except.error () := rfl

/-- C6 as amended: when the host's content read fails, no trigger-sink
invocation occurs and the host does not crash — the event subscription does
not await the handler, so the state is unchanged and dispatch continues — but
the rejection propagates out of `handleNoteChange` unhandled instead of being
caught locally. -/
theorem read_failure_no_trigger (s : SysState) :
    handleNoteChange s (Except.error ()) = Except.error () ∧
    modifyCallback s (Except.error ()) = s ∧
    (modifyCallback s (Except.error ())).quizCount = s.quizCount :=
  ⟨rfl, rfl, rfl⟩

/-- Counterexample for C7: positivity is not an invariant — after updating
the interval with `0` the stored field is non-positive, and it stays
non-positive across a reload because the unvalidated value was persisted. -/
theorem settings_positive_invariant_cex :
    JSNum.isPositive
      ((updateTimeInterval (initState none) "0").settings.timeInterval) = false ∧
    JSNum.isPositive
      ((loadSettings (updateTimeInterval (initState none) "0")).settings.timeInterval)
      = false := by
  exact ⟨by decide, by decide⟩

/-- C7 as amended: if persisted configuration is absent both fields take the
fixed defaults of 5 minutes and 500 words, which are positive; after a load,
each field is positive provided its persisted value is absent or positive.
Updates perform no validation, so positivity after an update is not
guaranteed. -/
theorem settings_defaults_on_load :
    objectAssign DEFAULT_SETTINGS none = DEFAULT_SETTINGS ∧
    DEFAULT_SETTINGS = { timeInterval := .int 5, wordCountThreshold := .int 500 } ∧
    DEFAULT_SETTINGS.timeInterval.isPositive = true ∧
    DEFAULT_SETTINGS.wordCountThreshold.isPositive = true ∧
    (∀ s : SysState, s.store = none → (loadSettings s).settings = DEFAULT_SETTINGS) ∧
    (∀ p : PersistedSettings,
      (∀ x : JSNum, p.timeInterval = some x → x.isPositive = true) →
      (∀ x : JSNum, p.wordCountThreshold = some x → x.isPositive = true) →
      (objectAssign DEFAULT_SETTINGS (some p)).timeInterval.isPositive = true ∧
      (objectAssign DEFAULT_SETTINGS (some p)).wordCountThreshold.isPositive = true) := by
  refine ⟨rfl, rfl, rfl, rfl, ?_, ?_⟩
  · intro s h
    simp [loadSettings, h, objectAssign]
  · intro p h1 h2
    constructor
    · cases hx : p.timeInterval with
      | none => simp [objectAssign, hx]; rfl
      | some x => simp [objectAssign, hx]; exact h1 x hx
    · cases hx : p.wordCountThreshold with
      | none => simp [objectAssign, hx]; rfl
      | some x => simp [objectAssign, hx]; exact h2 x hx

/-- Witness for C7 (amended): loading over a store holding a positive
interval and no threshold yields positive fields. -/
theorem settings_defaults_on_load_witness :
    (objectAssign DEFAULT_SETTINGS
        (some { timeInterval := some (.int 3), wordCountThreshold := none })).timeInterval.isPositive
      = true ∧
    (objectAssign DEFAULT_SETTINGS
        (some { timeInterval := some (.int 3), wordCountThreshold := none })).wordCountThreshold.isPositive
      = true := by
  refine settings_defaults_on_load.2.2.2.2.2
    { timeInterval := some (.int 3), wordCountThreshold := none } ?_ ?_
  · intro x hx
    simp at hx
    subst hx
    rfl
  · intro x hx
    simp at hx
